import Mathlib

/-!
Shallow embedding of `packages/pubsub/src/Providers/AWSAppSyncRealTimeProvider.ts`:
the AppSync real-time subscription client (connection handshake, retry policy,
per-subscription lifecycle, keep-alive monitor, auth header strategies).

Conventions of the embedding:
* The mutable provider instance is a `ProviderState` value; each method becomes a
  function from state (plus its arguments) to a new state together with its
  observable effects (events delivered to consumers, waiter callbacks invoked,
  timers cancelled, wire messages sent).
* A consumer observer is addressed by a numeric id `oid`; "the consumer received
  event e" is modelled as the pair `(oid, e)` appearing in an emission list.
  The single-shot ready/failed callbacks are modelled as waiter tokens (`Nat`);
  invoking one puts its token into an `invokedCallbacks` list.
* `setTimeout` handles are timer ids (`Nat`); `clearTimeout t` puts `t` into a
  `cancelledTimers` list.
* JS `Map` becomes an association list with the same get/set/delete semantics.
* JS truthiness quirks of the source (empty string is falsy, enum value 0 is
  falsy) are reproduced where the source relies on them, with comments.
* The source field `variables` is rendered `variablesStr` (`variables` is a
  reserved word in Lean).
-/

namespace AppSyncRT

/-- `MAX_DELAY_MS`: cap for the jittered exponential backoff delay. -/
def MAX_DELAY_MS : Nat := 5000

/-- `NON_RETRYABLE_CODES`: server error codes that abort the retry loop. -/
def NON_RETRYABLE_CODES : List Nat := [400, 401, 403]

/-- `CONNECTION_INIT_TIMEOUT`: ms to wait for the connection ack. -/
def CONNECTION_INIT_TIMEOUT : Nat := 15000

/-- `START_ACK_TIMEOUT`: ms to wait for the start ack. -/
def START_ACK_TIMEOUT : Nat := 15000

/-- `DEFAULT_KEEP_ALIVE_TIMEOUT`: default keep-alive window (5 minutes). -/
def DEFAULT_KEEP_ALIVE_TIMEOUT : Nat := 5 * 60 * 1000

/-- Modelled from the spec: the `CONTROL_MSG` string constants live in the
pubsub package index (`../index`), which is not under src/; only the values of
the strings are needed for consumer-facing messages. -/
def CONTROL_MSG_CONNECTION_FAILED : String := "Connection failed"

/-- Modelled from the spec: see `CONTROL_MSG_CONNECTION_FAILED`. -/
def CONTROL_MSG_CONNECTION_CLOSED : String := "Connection closed"

/-- Modelled from the spec: see `CONTROL_MSG_CONNECTION_FAILED`. -/
def CONTROL_MSG_TIMEOUT_DISCONNECT : String := "Timeout disconnect"

/-- Modelled from the spec: see `CONTROL_MSG_CONNECTION_FAILED`. -/
def CONTROL_MSG_REALTIME_SUBSCRIPTION_INIT_ERROR : String :=
  "AppSync Realtime subscription init error"

/-- `MESSAGE_TYPES` enum of the wire protocol. -/
inductive MESSAGE_TYPES
  | GQL_CONNECTION_INIT
  | GQL_CONNECTION_ERROR
  | GQL_CONNECTION_ACK
  | GQL_START
  | GQL_START_ACK
  | GQL_DATA
  | GQL_CONNECTION_KEEP_ALIVE
  | GQL_STOP
  | GQL_COMPLETE
  | GQL_ERROR
deriving DecidableEq, Repr

/-- `SUBSCRIPTION_STATUS` enum. In the source this is a numeric TS enum with
`PENDING = 0`, which is falsy in JS; the teardown relies on that (see
`unsubscribeCleanupResolved`). -/
inductive SUBSCRIPTION_STATUS
  | PENDING
  | CONNECTED
  | FAILED
deriving DecidableEq, Repr

/-- `SOCKET_STATUS` enum. -/
inductive SOCKET_STATUS
  | CLOSED
  | READY
  | CONNECTING
deriving DecidableEq, Repr

/-- A consumer observer: an address `oid` for delivered events plus its
`closed` flag (`observer.closed` in zen-observable). -/
structure Observer where
  oid : Nat
  closed : Bool
deriving DecidableEq, Repr

/-- One per-subscription record: `ObserverQuery` in the source. The optional
single-shot callbacks are waiter tokens; `startAckTimeoutId` is the id of the
armed ack-timeout timer. -/
structure ObserverQuery where
  observer : Observer
  query : String
  variablesStr : String
  subscriptionState : SUBSCRIPTION_STATUS
  subscriptionReadyCallback : Option Nat
  subscriptionFailedCallback : Option Nat
  startAckTimeoutId : Option Nat
deriving DecidableEq, Repr

/-- The physical WebSocket: only its readyState matters to the source's guards
(`readyState === WebSocket.OPEN`). -/
structure Socket where
  readyStateOpen : Bool
deriving DecidableEq, Repr

/-- The mutable fields of `AWSAppSyncRealTimeProvider`. -/
structure ProviderState where
  socketStatus : SOCKET_STATUS
  awsRealTimeSocket : Option Socket
  keepAliveTimeoutId : Option Nat
  keepAliveTimeout : Nat
  subscriptionObserverMap : List (String × ObserverQuery)
  promiseArray : List Nat
deriving DecidableEq, Repr

/-- `Map.get`. -/
def mapGet {α : Type} : List (String × α) → String → Option α
  | [], _ => none
  | (k, v) :: rest, key => if k = key then some v else mapGet rest key

/-- `Map.set`: replace in place if the key exists, else append. -/
def mapSet {α : Type} : List (String × α) → String → α → List (String × α)
  | [], key, v => [(key, v)]
  | (k, w) :: rest, key, v =>
    if k = key then (key, v) :: rest else (k, w) :: mapSet rest key v

/-- `Map.delete`. -/
def mapDelete {α : Type} : List (String × α) → String → List (String × α)
  | [], _ => []
  | (k, w) :: rest, key =>
    if k = key then mapDelete rest key else (k, w) :: mapDelete rest key

/-- The `payload` of an inbound wire message: its `data` field (if any) and its
raw JSON text (used in error messages via `JSON.stringify(payload)`). -/
structure WirePayload where
  data : Option String
  raw : String
deriving DecidableEq, Repr

/-- An inbound server message as destructured by
`_handleIncomingSubscriptionMessage` (`id` defaults to the empty string). -/
structure WireMessage where
  id : String
  msgType : MESSAGE_TYPES
  payload : Option WirePayload
deriving DecidableEq, Repr

/-- An outbound client message (start / stop). -/
structure WireOut where
  id : String
  msgType : MESSAGE_TYPES
deriving DecidableEq, Repr

/-- Events delivered to a consumer observer. Consumer-facing errors are a
structured list of error entries (`{ errors: [...] }` in the source). -/
inductive ConsumerEvent
  | next (payload : WirePayload)
  | error (errors : List String)
  | complete
deriving DecidableEq, Repr

/-- JS truthiness of `payload && payload.data`: present and a nonempty string. -/
def payloadDataTruthy : Option WirePayload → Bool
  | some p =>
    match p.data with
    | some d => !d.isEmpty
    | none => false
  | none => false

/-- `JSON.stringify(payload)` for an optional payload (an absent payload prints
as `undefined` inside the template literal). -/
def payloadRawOf : Option WirePayload → String
  | some p => p.raw
  | none => "undefined"

/-- `JSON.stringify({ query, variables })` as used in the timeout error text.
The exact escaping is immaterial to every claim. -/
def jsonQueryVariables (q v : String) : String :=
  "\x7b\"query\":\"" ++ q ++ "\",\"variables\":\"" ++ v ++ "\"\x7d"

/-- The text of the start-ack timeout error delivered to the consumer:
`Subscription timeout ${JSON.stringify({query, variables})}`. -/
def timeoutErrorMessage (q v : String) : String :=
  "Subscription timeout " ++ jsonQueryVariables q v

/-- Result of one run of `_handleIncomingSubscriptionMessage`. -/
structure HandleMsgResult where
  state : ProviderState
  emissions : List (Nat × ConsumerEvent)
  invokedCallbacks : List Nat
  cancelledTimers : List Nat
deriving DecidableEq, Repr

/-- `_handleIncomingSubscriptionMessage`: demultiplexes one inbound message.
`freshKaTimerId` is the id `setTimeout` hands back when the keep-alive branch
rearms the keep-alive timer. Emissions record the `observer.next/error/complete`
calls made by the branch (zen-observable ignores calls on a closed observer;
the guards of the source are reproduced verbatim, so the `GQL_ERROR` branch
calls `observer.error` without a `closed` check, exactly as the source does). -/
def _handleIncomingSubscriptionMessage (st : ProviderState) (message : WireMessage)
    (freshKaTimerId : Nat) : HandleMsgResult :=
  let entry := mapGet st.subscriptionObserverMap message.id
  if message.msgType = MESSAGE_TYPES.GQL_DATA ∧ payloadDataTruthy message.payload = true then
    match entry with
    | some e =>
      { state := st,
        emissions := [(e.observer.oid,
          ConsumerEvent.next (message.payload.getD { data := none, raw := "" }))],
        invokedCallbacks := [],
        cancelledTimers := [] }
    | none =>
      -- `observer not found for id`: silently dropped, no mutation
      { state := st, emissions := [], invokedCallbacks := [], cancelledTimers := [] }
  else if message.msgType = MESSAGE_TYPES.GQL_START_ACK then
    match entry with
    | some e =>
      let connectedRecord : ObserverQuery :=
        { observer := e.observer,
          query := e.query,
          variablesStr := e.variablesStr,
          startAckTimeoutId := none,
          subscriptionState := SUBSCRIPTION_STATUS.CONNECTED,
          subscriptionReadyCallback := e.subscriptionReadyCallback,
          subscriptionFailedCallback := e.subscriptionFailedCallback }
      let newMap := mapSet st.subscriptionObserverMap message.id connectedRecord
      { state := { st with subscriptionObserverMap := newMap },
        emissions := [],
        invokedCallbacks := e.subscriptionReadyCallback.toList,
        cancelledTimers := e.startAckTimeoutId.toList }
    | none =>
      { state := st, emissions := [], invokedCallbacks := [], cancelledTimers := [] }
  else if message.msgType = MESSAGE_TYPES.GQL_CONNECTION_KEEP_ALIVE then
    { state := { st with keepAliveTimeoutId := some freshKaTimerId },
      emissions := [],
      invokedCallbacks := [],
      cancelledTimers := st.keepAliveTimeoutId.toList }
  else if message.msgType = MESSAGE_TYPES.GQL_ERROR then
    match entry with
    | some e =>
      let failedRecord : ObserverQuery :=
        { observer := e.observer,
          query := e.query,
          variablesStr := e.variablesStr,
          startAckTimeoutId := e.startAckTimeoutId,
          subscriptionReadyCallback := e.subscriptionReadyCallback,
          subscriptionFailedCallback := e.subscriptionFailedCallback,
          subscriptionState := SUBSCRIPTION_STATUS.FAILED }
      let newMap := mapSet st.subscriptionObserverMap message.id failedRecord
      { state := { st with subscriptionObserverMap := newMap },
        emissions :=
          [(e.observer.oid, ConsumerEvent.error
              [CONTROL_MSG_CONNECTION_FAILED ++ ": " ++ payloadRawOf message.payload]),
           (e.observer.oid, ConsumerEvent.complete)],
        invokedCallbacks := e.subscriptionFailedCallback.toList,
        cancelledTimers := e.startAckTimeoutId.toList }
    | none =>
      { state := st, emissions := [], invokedCallbacks := [], cancelledTimers := [] }
  else
    { state := st, emissions := [], invokedCallbacks := [], cancelledTimers := [] }

/-- Result of `_errorDisconnect`. -/
structure DisconnectResult where
  state : ProviderState
  emissions : List (Nat × ConsumerEvent)
  socketCloseCalled : Bool
deriving DecidableEq, Repr

/-- `_errorDisconnect`: fatal liveness/connection failure. Every registered
consumer whose observer is still open gets one error; the registry is cleared,
the socket closed (if present), the status reset to CLOSED. -/
def _errorDisconnect (st : ProviderState) (msg : String) : DisconnectResult :=
  { state := { st with
      subscriptionObserverMap := [],
      awsRealTimeSocket := st.awsRealTimeSocket.map (fun _ => { readyStateOpen := false }),
      socketStatus := SOCKET_STATUS.CLOSED },
    emissions := st.subscriptionObserverMap.filterMap (fun p =>
      if p.2.observer.closed then none
      else some (p.2.observer.oid, ConsumerEvent.error [msg])),
    socketCloseCalled := st.awsRealTimeSocket.isSome }

/-- Result of `_timeoutStartSubscriptionAck`. -/
structure TimeoutAckResult where
  state : ProviderState
  emissions : List (Nat × ConsumerEvent)
  invokedCallbacks : List Nat
deriving DecidableEq, Repr

/-- `_timeoutStartSubscriptionAck`: the armed ack-timeout fired. If the record
exists, it is overwritten by a FAILED record that carries neither the waiter
callbacks nor the timer id (the source's object literal omits those fields),
and — when the observer is still open — one timeout error plus a completion are
delivered. No stored callback is invoked. -/
def _timeoutStartSubscriptionAck (st : ProviderState) (subscriptionId : String) :
    TimeoutAckResult :=
  match mapGet st.subscriptionObserverMap subscriptionId with
  | none => { state := st, emissions := [], invokedCallbacks := [] }
  | some e =>
    let failedRecord : ObserverQuery :=
      { observer := e.observer,
        query := e.query,
        variablesStr := e.variablesStr,
        subscriptionState := SUBSCRIPTION_STATUS.FAILED,
        subscriptionReadyCallback := none,
        subscriptionFailedCallback := none,
        startAckTimeoutId := none }
    let newMap := mapSet st.subscriptionObserverMap subscriptionId failedRecord
    { state := { st with subscriptionObserverMap := newMap },
      emissions :=
        if e.observer.closed then []
        else
          [(e.observer.oid,
              ConsumerEvent.error [timeoutErrorMessage e.query e.variablesStr]),
           (e.observer.oid, ConsumerEvent.complete)],
      invokedCallbacks := [] }

/-- Whether `_waitForSubscriptionToBeConnected` returned at once or installed
the single-shot waiters and blocked on their promise. -/
inductive WaitOutcome
  | immediate
  | waiting
deriving DecidableEq, Repr

/-- `_waitForSubscriptionToBeConnected`: if the record exists and is PENDING,
the record is overwritten with one holding the new promise's resolve/reject as
`subscriptionReadyCallback`/`subscriptionFailedCallback`; the source's object
literal omits `startAckTimeoutId`, so the stored timer id is dropped. -/
def _waitForSubscriptionToBeConnected (st : ProviderState) (subscriptionId : String)
    (resToken rejToken : Nat) : ProviderState × WaitOutcome :=
  match mapGet st.subscriptionObserverMap subscriptionId with
  | some subscriptionObserver =>
    if subscriptionObserver.subscriptionState = SUBSCRIPTION_STATUS.PENDING then
      let waiterRecord : ObserverQuery :=
        { observer := subscriptionObserver.observer,
          subscriptionState := subscriptionObserver.subscriptionState,
          variablesStr := subscriptionObserver.variablesStr,
          query := subscriptionObserver.query,
          subscriptionReadyCallback := some resToken,
          subscriptionFailedCallback := some rejToken,
          startAckTimeoutId := none }
      let newMap := mapSet st.subscriptionObserverMap subscriptionId waiterRecord
      ({ st with subscriptionObserverMap := newMap }, WaitOutcome.waiting)
    else (st, WaitOutcome.immediate)
  | none => (st, WaitOutcome.immediate)

/-- `_sendUnsubscriptionMessage`: sends a stop message only when the socket is
present, open, and the status is READY. -/
def _sendUnsubscriptionMessage (st : ProviderState) (subscriptionId : String) :
    List WireOut :=
  match st.awsRealTimeSocket with
  | some s =>
    if s.readyStateOpen = true ∧ st.socketStatus = SOCKET_STATUS.READY then
      [{ id := subscriptionId, msgType := MESSAGE_TYPES.GQL_STOP }]
    else []
  | none => []

/-- Result of the teardown body that runs once the wait resolved. -/
structure CleanupResult where
  state : ProviderState
  socketSends : List WireOut
  cancelledTimers : List Nat
  scheduledCloseCheck : Bool
deriving DecidableEq, Repr

/-- The teardown returned by `subscribe`, after `_waitForSubscriptionToBeConnected`
has resolved: look the record up again; `if (!subscriptionState) return` treats
an absent record — and also a PENDING one, since the TS enum value `PENDING` is
`0` and falsy — as already unsubscribed; a CONNECTED record gets a stop message;
a FAILED one throws `Subscription never connected` which is caught and logged.
The `finally` block always deletes the record and schedules the deferred
socket-close check. No ack-timeout timer is ever cancelled on this path. -/
def unsubscribeCleanupResolved (st : ProviderState) (subscriptionId : String) :
    CleanupResult :=
  let stateOpt := (mapGet st.subscriptionObserverMap subscriptionId).map
    (fun e => e.subscriptionState)
  let sends :=
    match stateOpt with
    | none => []
    | some s =>
      if s = SUBSCRIPTION_STATUS.PENDING then []
      else if s = SUBSCRIPTION_STATUS.CONNECTED then
        _sendUnsubscriptionMessage st subscriptionId
      else []
  let newMap := mapDelete st.subscriptionObserverMap subscriptionId
  { state := { st with subscriptionObserverMap := newMap },
    socketSends := sends,
    cancelledTimers := [],
    scheduledCloseCheck := true }

/-- Result of starting an unsubscribe. -/
structure UnsubscribeBeginResult where
  state : ProviderState
  outcome : WaitOutcome
  socketSends : List WireOut
  cancelledTimers : List Nat
deriving DecidableEq, Repr

/-- The teardown returned by `subscribe`, from its start: first await
`_waitForSubscriptionToBeConnected`. If that blocks (record PENDING), nothing
further happens until a waiter token is invoked — in particular no stop message
is sent and no timer is touched. If it returns at once, the cleanup body runs. -/
def unsubscribeBegin (st : ProviderState) (subscriptionId : String)
    (resToken rejToken : Nat) : UnsubscribeBeginResult :=
  match _waitForSubscriptionToBeConnected st subscriptionId resToken rejToken with
  | (st1, WaitOutcome.waiting) =>
    { state := st1,
      outcome := WaitOutcome.waiting,
      socketSends := [],
      cancelledTimers := [] }
  | (st1, WaitOutcome.immediate) =>
    let c := unsubscribeCleanupResolved st1 subscriptionId
    { state := c.state,
      outcome := WaitOutcome.immediate,
      socketSends := c.socketSends,
      cancelledTimers := c.cancelledTimers }

/-- Observable outcome of the ack-timeout expiry scenario. -/
structure AckTimeoutOverallResult where
  finalState : ProviderState
  emissions : List (Nat × ConsumerEvent)
  socketSends : List WireOut
deriving DecidableEq, Repr

/-- The ack-timeout firing composed with the teardown that the observable
framework (zen-observable) runs when `complete` is delivered to a still-open
observer: `observer.complete()` in `_timeoutStartSubscriptionAck` triggers the
cleanup function returned by `subscribe` ("Cleanup will be automatically
executed" in the source), which removes the record. -/
def ackTimeoutExpiry (st : ProviderState) (subscriptionId : String) :
    AckTimeoutOverallResult :=
  let r := _timeoutStartSubscriptionAck st subscriptionId
  if r.emissions.any (fun x => x.2 == ConsumerEvent.complete) then
    let u := unsubscribeBegin r.state subscriptionId 0 0
    { finalState := u.state, emissions := r.emissions, socketSends := u.socketSends }
  else
    { finalState := r.state, emissions := r.emissions, socketSends := [] }

/-- What the synchronous prefix of `_initializeWebSocketConnection` did for one
caller: return at once (status READY), enqueue the caller and start the single
handshake (status CLOSED), or only enqueue the caller (status CONNECTING). -/
inductive InitRequestOutcome
  | immediateReturn
  | startedHandshake
  | enqueuedOnly
deriving DecidableEq, Repr

/-- Synchronous prefix of `_initializeWebSocketConnection`: the READY early
return, the `promiseArray.push`, and the CLOSED → CONNECTING transition that
guards the single handshake. -/
def initRequest (st : ProviderState) (caller : Nat) :
    ProviderState × InitRequestOutcome :=
  if st.socketStatus = SOCKET_STATUS.READY then
    (st, InitRequestOutcome.immediateReturn)
  else
    let st1 := { st with promiseArray := st.promiseArray ++ [caller] }
    if st1.socketStatus = SOCKET_STATUS.CLOSED then
      ({ st1 with socketStatus := SOCKET_STATUS.CONNECTING },
        InitRequestOutcome.startedHandshake)
    else (st1, InitRequestOutcome.enqueuedOnly)

/-- Outcome of the single retryable handshake
(`_initializeRetryableHandshake`): success carries the server-negotiated
`connectionTimeoutMs`; failure carries the classified error's message. -/
inductive HandshakeOutcome
  | success (connectionTimeoutMs : Nat)
  | failure (errMessage : String)
deriving DecidableEq, Repr

/-- Completion of the handshake: the waiter resolutions/rejections performed by
`_initializeWebSocketConnection` when the awaited handshake settles. -/
structure HandshakeCompletionResult where
  state : ProviderState
  resolvedWaiters : List Nat
  rejectedWaiters : List Nat
  rejectionError : Option String
deriving DecidableEq, Repr

/-- Continuation of `_initializeWebSocketConnection` once the handshake settles:
on success every promise in `promiseArray` is resolved, status becomes READY and
the array is emptied; on failure every promise is rejected with the one error,
the partially-open socket is torn down, status becomes CLOSED. -/
def handshakeComplete (st : ProviderState) (outcome : HandshakeOutcome) :
    HandshakeCompletionResult :=
  match outcome with
  | HandshakeOutcome.success kaMs =>
    { state := { st with
        socketStatus := SOCKET_STATUS.READY,
        promiseArray := [],
        awsRealTimeSocket := some { readyStateOpen := true },
        keepAliveTimeout := kaMs },
      resolvedWaiters := st.promiseArray,
      rejectedWaiters := [],
      rejectionError := none }
  | HandshakeOutcome.failure e =>
    { state := { st with
        promiseArray := [],
        awsRealTimeSocket := none,
        socketStatus := SOCKET_STATUS.CLOSED },
      resolvedWaiters := [],
      rejectedWaiters := st.promiseArray,
      rejectionError := some e }

/-- Header-set result of the auth strategy: the source returns the *string*
`''` for unsupported modes and a header object otherwise. -/
inductive AuthHeaders
  | emptyString
  | headerSet (headers : List (String × String))
deriving DecidableEq, Repr

/-- Full observable result of one `_initializeWebSocketConnection` call. -/
structure InitWSResult where
  state : ProviderState
  returnedImmediately : Bool
  handshakeAttempted : Bool
  resolvedWaiters : List Nat
  rejectedWaiters : List Nat
  rejectionError : Option String
deriving DecidableEq, Repr

/-- `_initializeWebSocketConnection` for a single caller, with the results of
its awaited sub-operations passed as arguments: `authResult` is what
`_awsRealTimeHeaderBasedAuth` produced (an exception from it is caught by the
same catch block and rejects all waiters without any handshake), `handshake`
is how `_initializeRetryableHandshake` settled. -/
def _initializeWebSocketConnection (st : ProviderState) (caller : Nat)
    (authResult : Except String AuthHeaders) (handshake : HandshakeOutcome) :
    InitWSResult :=
  match initRequest st caller with
  | (st1, InitRequestOutcome.immediateReturn) =>
    { state := st1,
      returnedImmediately := true,
      handshakeAttempted := false,
      resolvedWaiters := [],
      rejectedWaiters := [],
      rejectionError := none }
  | (st1, InitRequestOutcome.enqueuedOnly) =>
    { state := st1,
      returnedImmediately := false,
      handshakeAttempted := false,
      resolvedWaiters := [],
      rejectedWaiters := [],
      rejectionError := none }
  | (st1, InitRequestOutcome.startedHandshake) =>
    match authResult with
    | Except.error e =>
      { state := { st1 with
          promiseArray := [],
          awsRealTimeSocket := none,
          socketStatus := SOCKET_STATUS.CLOSED },
        returnedImmediately := false,
        handshakeAttempted := false,
        resolvedWaiters := [],
        rejectedWaiters := st1.promiseArray,
        rejectionError := some e }
    | Except.ok _ =>
      let h := handshakeComplete st1 handshake
      { state := h.state,
        returnedImmediately := false,
        handshakeAttempted := true,
        resolvedWaiters := h.resolvedWaiters,
        rejectedWaiters := h.rejectedWaiters,
        rejectionError := h.rejectionError }

/-- The five keys of the `headerHandler` record in
`_awsRealTimeHeaderBasedAuth` (the keys of `GRAPHQL_AUTH_MODE`). -/
def supportedAuthModes : List String :=
  ["API_KEY", "AWS_IAM", "OPENID_CONNECT", "AMAZON_COGNITO_USER_POOLS", "AWS_LAMBDA"]

/-- The cached federated-session entry (`Cache.getItem('federatedInfo')`): it
may be present yet carry no token, in which case the source does NOT fall back
to `Auth.currentAuthenticatedUser`. -/
structure FederatedInfo where
  token : Option String
deriving DecidableEq, Repr

/-- The external collaborators consulted by the auth handlers (credential
provider, session/token provider, cache, signer), per the boundary contracts of
the spec: their answers are inputs to the embedding. -/
structure AuthEnv where
  cupAccessTokenJwt : String
  federatedInfo : Option FederatedInfo
  currentUserPresent : Bool
  currentUserToken : Option String
  credentialsOK : Bool
  signedHeaders : List (String × String)
  apiDateString : String
deriving DecidableEq, Repr

/-- The argument record of the auth handlers (`AWSAppSyncRealTimeAuthInput`). -/
structure AuthInput where
  authenticationType : Option String
  payload : String
  canonicalUri : String
  appSyncGraphqlEndpoint : Option String
  apiKey : Option String
  region : Option String
  additionalHeaders : List (String × String)
deriving DecidableEq, Repr

/-- `url.parse(endpoint).host` (external `url` library): the authority part of
the URL. The exact parse is immaterial to every claim. -/
def urlParseHost (u : String) : String :=
  let parts := u.splitOn "://"
  let afterScheme := if parts.length ≥ 2 then parts.getD 1 "" else parts.getD 0 ""
  (afterScheme.splitOn "/").getD 0 ""

/-- `_awsRealTimeCUPHeader`: Cognito-user-pool access token plus host. -/
def _awsRealTimeCUPHeader (host : String) (env : AuthEnv) :
    Except String (List (String × String)) :=
  Except.ok [("Authorization", env.cupAccessTokenJwt), ("host", host)]

/-- `_awsRealTimeOPENIDHeader`: federated-session cache first, else the
authenticated user's token; no token at all throws `No federated jwt`. -/
def _awsRealTimeOPENIDHeader (host : String) (env : AuthEnv) :
    Except String (List (String × String)) :=
  let token : Option String :=
    match env.federatedInfo with
    | some fi => fi.token
    | none => if env.currentUserPresent then env.currentUserToken else none
  match token with
  | none => Except.error "No federated jwt"
  | some t => Except.ok [("Authorization", t), ("host", host)]

/-- `_awsRealTimeApiKeyHeader`: host, timestamp and static key. (An absent
`apiKey` serializes as an undefined header value; rendered here as `""`.) -/
def _awsRealTimeApiKeyHeader (apiKey : Option String) (host : String)
    (env : AuthEnv) : Except String (List (String × String)) :=
  Except.ok [("host", host), ("x-amz-date", env.apiDateString),
             ("x-api-key", apiKey.getD "")]

/-- `_awsRealTimeIAMHeader`: requires credentials (`No credentials` otherwise)
and returns the signer collaborator's header set. -/
def _awsRealTimeIAMHeader (env : AuthEnv) :
    Except String (List (String × String)) :=
  if env.credentialsOK = false then Except.error "No credentials"
  else Except.ok env.signedHeaders

/-- `_customAuthHeader` (AWS_LAMBDA): requires the caller to have put a truthy
`Authorization` into `additionalHeaders` (`No auth token specified` otherwise;
an empty string is falsy in JS, hence also rejected). -/
def _customAuthHeader (host : String) (additionalHeaders : List (String × String)) :
    Except String (List (String × String)) :=
  match mapGet additionalHeaders "Authorization" with
  | none => Except.error "No auth token specified"
  | some tok =>
    if tok.isEmpty then Except.error "No auth token specified"
    else Except.ok [("Authorization", tok), ("host", host)]

/-- `_awsRealTimeHeaderBasedAuth`: dynamic dispatch on the mode name. A missing
mode, or a mode that is not a key of the handler record, logs a debug line and
returns the *string* `''` — it does not throw. -/
def _awsRealTimeHeaderBasedAuth (input : AuthInput) (env : AuthEnv) :
    Except String AuthHeaders :=
  match input.authenticationType with
  | none => Except.ok AuthHeaders.emptyString
  | some t =>
    if supportedAuthModes.contains t = false then
      -- logger.debug(`Authentication type ... not supported`); return ''
      Except.ok AuthHeaders.emptyString
    else
      let host := urlParseHost (input.appSyncGraphqlEndpoint.getD "")
      let r : Except String (List (String × String)) :=
        if t = "API_KEY" then _awsRealTimeApiKeyHeader input.apiKey host env
        else if t = "AWS_IAM" then _awsRealTimeIAMHeader env
        else if t = "OPENID_CONNECT" then _awsRealTimeOPENIDHeader host env
        else if t = "AMAZON_COGNITO_USER_POOLS" then _awsRealTimeCUPHeader host env
        else _customAuthHeader host input.additionalHeaders
      r.map AuthHeaders.headerSet

/-- JS truthiness of `!authenticationType || !headerHandler[authenticationType]`. -/
def authModeUnsupported : Option String → Bool
  | none => true
  | some m => !(supportedAuthModes.contains m)

/-- Raw failures of one `_initializeHandshake` attempt, as they reach its catch
block: a `GQL_CONNECTION_ERROR` rejection `{ errorType, errorCode }` (fields
defaulted to `''` and `0` by the destructuring), a socket-close rejection
(a plain `Error`), or the connection-init ack timeout (a plain `Error`). -/
inductive RawHandshakeError
  | connError (errorType : String) (errorCode : Nat)
  | closeError (message : String)
  | ackTimeoutError
deriving DecidableEq, Repr

/-- What `_initializeHandshake` rethrows: a `NonRetryableError` aborts
`jitteredExponentialRetry`; anything else is retried. -/
inductive ClassifiedError
  | nonRetryable (message : String)
  | retryable (message : String)
deriving DecidableEq, Repr

/-- The server-supplied numeric code of a raw failure, when there is one. -/
def errorCodeOf : RawHandshakeError → Option Nat
  | RawHandshakeError.connError _ c => some c
  | _ => none

/-- `NON_RETRYABLE_CODES.includes(errorCode)` (false when the failure carries
no code: `includes(undefined)` is false). -/
def codeIsNonRetryable (e : RawHandshakeError) : Bool :=
  match errorCodeOf e with
  | some c => NON_RETRYABLE_CODES.contains c
  | none => false

/-- The text of the connection-init ack timeout error. -/
def ackTimeoutText : String :=
  "Connection timeout: ack from AWSRealTime was not received on " ++
    toString CONNECTION_INIT_TIMEOUT ++ " ms"

/-- The catch block of `_initializeHandshake`: a code in
`NON_RETRYABLE_CODES` becomes `NonRetryableError(errorType)`; else a truthy
`errorType` becomes `Error(errorType)`; else the raw error is rethrown. Plain
`Error`s destructure to `errorType`/`errorCode` undefined and are rethrown raw;
none of the non-code paths produce a `NonRetryableError`. -/
def _initializeHandshakeClassify : RawHandshakeError → ClassifiedError
  | RawHandshakeError.connError t c =>
    if c ∈ NON_RETRYABLE_CODES then ClassifiedError.nonRetryable t
    else if t.isEmpty = false then ClassifiedError.retryable t
    else ClassifiedError.retryable ""
  | RawHandshakeError.closeError m => ClassifiedError.retryable m
  | RawHandshakeError.ackTimeoutError => ClassifiedError.retryable ackTimeoutText

/-- Modelled from the spec: the delay schedule of `jitteredExponentialRetry`
(repository core package, not under src/) — jittered exponential growth,
capped at `maxDelayMs` per step; `jitter` is the uniform random component. -/
def jitteredBackoffDelay (jitter : Nat → Nat) (maxDelayMs : Nat) (attempt : Nat) : Nat :=
  min (100 * 2 ^ attempt + jitter attempt % 100) maxDelayMs

/-- Outcome of the retry loop. -/
inductive RetryResult
  | succeeded (attemptsUsed : Nat)
  | abortedNonRetryable (message : String) (attemptsUsed : Nat)
  | exhausted
deriving DecidableEq, Repr

/-- Modelled from the spec: the loop of `jitteredExponentialRetry` (repository
core package, not under src/) — repeat the operation until it succeeds or
throws a `NonRetryableError`, which aborts immediately; each list entry is one
attempt's outcome (`none` = success, `some e` = the raw failure that attempt
hit), classified by the catch block of `_initializeHandshake` from src. -/
def retryLoop : List (Option RawHandshakeError) → Nat → RetryResult
  | [], _ => RetryResult.exhausted
  | none :: _, n => RetryResult.succeeded (n + 1)
  | some e :: rest, n =>
    match _initializeHandshakeClassify e with
    | ClassifiedError.nonRetryable m => RetryResult.abortedNonRetryable m (n + 1)
    | ClassifiedError.retryable _ => retryLoop rest (n + 1)

/-- `jitteredExponentialRetry(this._initializeHandshake.bind(this),
[awsRealTimeUrl], MAX_DELAY_MS)` as invoked by `_initializeRetryableHandshake`. -/
def _initializeRetryableHandshake (attempts : List (Option RawHandshakeError)) :
    RetryResult :=
  retryLoop attempts 0

/-- `AWSAppSyncRealTimeProviderOptions` as far as `subscribe` and the auth
strategy consult it. Note: there is no subscription-id field. -/
structure SubscribeOptions where
  appSyncGraphqlEndpoint : Option String
  authenticationType : Option String
  query : Option String
  variablesStr : Option String
  apiKey : Option String
  region : Option String
  additionalHeaders : List (String × String)
deriving DecidableEq, Repr

/-- The auth input built for the `/connect` handshake inside
`_initializeWebSocketConnection` (payload is the empty JSON object). -/
def connectAuthInput (options : SubscribeOptions) : AuthInput :=
  { authenticationType := options.authenticationType,
    payload := "\x7b\x7d",
    canonicalUri := "/connect",
    appSyncGraphqlEndpoint := options.appSyncGraphqlEndpoint,
    apiKey := options.apiKey,
    region := options.region,
    additionalHeaders := options.additionalHeaders }

/-- `_initializeWebSocketConnection` with the auth headers computed from the
subscribe options by `_awsRealTimeHeaderBasedAuth`, as the source does. -/
def initializeWithAuth (st : ProviderState) (caller : Nat) (env : AuthEnv)
    (options : SubscribeOptions) (handshake : HandshakeOutcome) : InitWSResult :=
  _initializeWebSocketConnection st caller
    (_awsRealTimeHeaderBasedAuth (connectAuthInput options) env) handshake

/-- The error text of the missing-options / missing-endpoint branch of
`subscribe`. -/
def subscribeErrorMessage : String :=
  "Subscribe only available for AWS AppSync endpoint"

/-- What the observer-callback body of `subscribe` decides synchronously:
either the early single-error-then-complete branch, or a started subscription
carrying the internally generated uuid. -/
inductive SubscribeSetup
  | earlyError (errorEvents : List (List String)) (completed : Bool)
  | started (subscriptionId : String)
deriving DecidableEq, Repr

/-- The body of the `Observable` constructed by `subscribe`. `freshUuid` is the
value of `uuid()` drawn inside `subscribe` — the caller has no way to pass an
id (`SubscribeOptions` has no such field). `!options || !appSyncGraphqlEndpoint`
also treats an empty-string endpoint as missing (JS falsiness). -/
def subscribe (freshUuid : String) (options : Option SubscribeOptions) :
    SubscribeSetup :=
  let ep := options.bind (fun o => o.appSyncGraphqlEndpoint)
  let epFalsy : Bool :=
    match ep with
    | none => true
    | some s => s.isEmpty
  if options.isNone || epFalsy then
    SubscribeSetup.earlyError [[subscribeErrorMessage]] true
  else
    SubscribeSetup.started freshUuid

/-- The `subscriptionMessage` sent by
`_startSubscriptionWithAWSAppSyncRealTime`: its correlation key `id` is the
`subscriptionId` that `subscribe` generated. -/
def buildSubscriptionMessage (subscriptionId : String) (dataString : String) :
    WireOut × String :=
  ({ id := subscriptionId, msgType := MESSAGE_TYPES.GQL_START }, dataString)

/-- The effect of `subscribe` on the provider: the early-error branch touches
neither the registry nor the socket; the started branch performs the first
`subscriptionObserverMap.set` of `_startSubscriptionWithAWSAppSyncRealTime`
(registering the PENDING record; the rest of that method — auth, connection,
send — is modelled by the definitions above). -/
def subscribeEffects (st : ProviderState) (obs : Observer) (freshUuid : String)
    (options : Option SubscribeOptions) : ProviderState × List WireOut :=
  match subscribe freshUuid options with
  | SubscribeSetup.earlyError _ _ => (st, [])
  | SubscribeSetup.started sid =>
    let pendingRecord : ObserverQuery :=
      { observer := obs,
        query := ((options.bind (fun o => o.query)).getD ""),
        variablesStr := ((options.bind (fun o => o.variablesStr)).getD ""),
        subscriptionState := SUBSCRIPTION_STATUS.PENDING,
        subscriptionReadyCallback := none,
        subscriptionFailedCallback := none,
        startAckTimeoutId := none }
    let newMap := mapSet st.subscriptionObserverMap sid pendingRecord
    ({ st with subscriptionObserverMap := newMap }, [])

/-! Concrete fixtures used by witnesses and counterexamples. -/

/-- Fixture: an open observer. -/
def obs1 : Observer := { oid := 1, closed := false }

/-- Fixture: a PENDING record holding a concurrent unsubscribe's waiters
(ready token 4, failed token 5), as installed by
`_waitForSubscriptionToBeConnected`. -/
def recPendingWaiter : ObserverQuery :=
  { observer := obs1,
    query := "q",
    variablesStr := "v",
    subscriptionState := SUBSCRIPTION_STATUS.PENDING,
    subscriptionReadyCallback := some 4,
    subscriptionFailedCallback := some 5,
    startAckTimeoutId := none }

/-- Fixture: a PENDING record with an armed ack-timeout timer (id 7), as left
by `_startSubscriptionWithAWSAppSyncRealTime` after sending the start message. -/
def recPendingTimer : ObserverQuery :=
  { observer := obs1,
    query := "q",
    variablesStr := "v",
    subscriptionState := SUBSCRIPTION_STATUS.PENDING,
    subscriptionReadyCallback := none,
    subscriptionFailedCallback := none,
    startAckTimeoutId := some 7 }

/-- Fixture: a provider with a ready socket and the given registry. -/
def baseState (m : List (String × ObserverQuery)) : ProviderState :=
  { socketStatus := SOCKET_STATUS.READY,
    awsRealTimeSocket := some { readyStateOpen := true },
    keepAliveTimeoutId := none,
    keepAliveTimeout := DEFAULT_KEEP_ALIVE_TIMEOUT,
    subscriptionObserverMap := m,
    promiseArray := [] }

/-- Fixture: ready provider, one PENDING record with waiters. -/
def stWaiter : ProviderState := baseState [("s1", recPendingWaiter)]

/-- Fixture: ready provider, one PENDING record with an armed timer. -/
def stTimer : ProviderState := baseState [("s1", recPendingTimer)]

/-- Fixture: a provider with a closed socket and empty registry. -/
def stClosed : ProviderState :=
  { socketStatus := SOCKET_STATUS.CLOSED,
    awsRealTimeSocket := none,
    keepAliveTimeoutId := none,
    keepAliveTimeout := DEFAULT_KEEP_ALIVE_TIMEOUT,
    subscriptionObserverMap := [],
    promiseArray := [] }

/-- Fixture: collaborator answers for the auth handlers. -/
def envDefault : AuthEnv :=
  { cupAccessTokenJwt := "jwt",
    federatedInfo := none,
    currentUserPresent := false,
    currentUserToken := none,
    credentialsOK := true,
    signedHeaders := [],
    apiDateString := "20260101T000000Z" }

/-- Fixture: valid subscribe options (API key mode). -/
def optA : SubscribeOptions :=
  { appSyncGraphqlEndpoint := some "https://example.com/graphql",
    authenticationType := some "API_KEY",
    query := some "subscription A",
    variablesStr := none,
    apiKey := some "k",
    region := some "r",
    additionalHeaders := [] }

/-- Fixture: the same options with a different query. -/
def optB : SubscribeOptions := { optA with query := some "subscription B" }

/-- Fixture: options whose authentication mode is not one of the five keys. -/
def optsBogusMode : SubscribeOptions := { optA with authenticationType := some "MAGIC_MODE" }

/-- Fixture: two CONNECTED records with open observers (oids 1 and 2). -/
def recA : ObserverQuery :=
  { observer := { oid := 1, closed := false },
    query := "qa",
    variablesStr := "va",
    subscriptionState := SUBSCRIPTION_STATUS.CONNECTED,
    subscriptionReadyCallback := none,
    subscriptionFailedCallback := none,
    startAckTimeoutId := none }

/-- Fixture: see `recA`. -/
def recB : ObserverQuery :=
  { recA with observer := { oid := 2, closed := false }, query := "qb" }

/-- Fixture: ready provider with two registered subscriptions. -/
def stTwoSubs : ProviderState := baseState [("a", recA), ("b", recB)]

/-! Helper lemmas about the Map embedding. -/

/-- `Map.set` followed by `Map.get` of the same key yields the stored value. -/
theorem mapGet_mapSet_self {α : Type} (m : List (String × α)) (k : String) (v : α) :
    mapGet (mapSet m k v) k = some v := by
  induction m with
  | nil => simp [mapSet, mapGet]
  | cons a rest ih =>
    obtain ⟨ak, av⟩ := a
    by_cases h : ak = k
    · simp [mapSet, h, mapGet]
    · simp [mapSet, h, mapGet, ih]

/-- `Map.delete` followed by `Map.get` of the same key yields nothing. -/
theorem mapGet_mapDelete_self {α : Type} (m : List (String × α)) (k : String) :
    mapGet (mapDelete m k) k = none := by
  induction m with
  | nil => simp [mapDelete, mapGet]
  | cons a rest ih =>
    obtain ⟨ak, av⟩ := a
    by_cases h : ak = k
    · simp [mapDelete, h, ih]
    · simp [mapDelete, h, mapGet, ih]

/-! Claim theorems. -/

/-- Claim C9: an inbound data message carrying a subscription id is delivered
to that subscription's consumer iff a record for the id exists (a record always
carries its consumer handle), regardless of the record's state; a data message
for an absent id is silently dropped and mutates no state. -/
theorem claim9_confirmed (st : ProviderState) (message : WireMessage) (kaId : Nat)
    (p : WirePayload)
    (hty : message.msgType = MESSAGE_TYPES.GQL_DATA)
    (hp : message.payload = some p)
    (htr : payloadDataTruthy message.payload = true) :
    (∀ e, mapGet st.subscriptionObserverMap message.id = some e →
      _handleIncomingSubscriptionMessage st message kaId =
        { state := st,
          emissions := [(e.observer.oid, ConsumerEvent.next p)],
          invokedCallbacks := [],
          cancelledTimers := [] }) ∧
    (mapGet st.subscriptionObserverMap message.id = none →
      _handleIncomingSubscriptionMessage st message kaId =
        { state := st, emissions := [], invokedCallbacks := [], cancelledTimers := [] }) := by
  constructor
  · intro e he
    rw [hp] at htr
    simp [_handleIncomingSubscriptionMessage, hty, htr, he, hp]
  · intro he
    simp [_handleIncomingSubscriptionMessage, hty, htr, he]

/-- Witness for C9: a concrete data message for the present id "s1" is
delivered to its observer without touching state; the hypotheses are
discharged by evaluation. -/
theorem claim9_confirmed_witness :
    _handleIncomingSubscriptionMessage stWaiter
        { id := "s1", msgType := MESSAGE_TYPES.GQL_DATA,
          payload := some { data := some "d", raw := "rawjson" } } 99 =
      { state := stWaiter,
        emissions := [(recPendingWaiter.observer.oid,
          ConsumerEvent.next { data := some "d", raw := "rawjson" })],
        invokedCallbacks := [],
        cancelledTimers := [] } :=
  (claim9_confirmed stWaiter
    { id := "s1", msgType := MESSAGE_TYPES.GQL_DATA,
      payload := some { data := some "d", raw := "rawjson" } } 99
    { data := some "d", raw := "rawjson" } rfl rfl rfl).1 recPendingWaiter rfl

/-- Claim C2 as stated is false on the code: at a concrete PENDING record that
holds a pending unsubscribe "failed" waiter (token 5), the ack-timeout expiry
transitions the record to FAILED yet invokes no callback, and the overwritten
record no longer holds the waiter — the blocked unsubscribe is never resumed by
this path. -/
theorem claim2_counterexample :
    (mapGet stWaiter.subscriptionObserverMap "s1").map
        (fun r => r.subscriptionState) = some SUBSCRIPTION_STATUS.PENDING ∧
    (mapGet stWaiter.subscriptionObserverMap "s1").bind
        (fun r => r.subscriptionFailedCallback) = some 5 ∧
    (mapGet (_timeoutStartSubscriptionAck stWaiter "s1").state.subscriptionObserverMap
        "s1").map (fun r => r.subscriptionState) = some SUBSCRIPTION_STATUS.FAILED ∧
    (_timeoutStartSubscriptionAck stWaiter "s1").invokedCallbacks = [] ∧
    (mapGet (_timeoutStartSubscriptionAck stWaiter "s1").state.subscriptionObserverMap
        "s1").bind (fun r => r.subscriptionFailedCallback) = none :=
  ⟨rfl, rfl, rfl, rfl, rfl⟩

/-- Claim C2 amended: a pending "failed" waiter is invoked when the record
transitions PENDING→FAILED via a correlated protocol-error message; on
ack-timeout expiry, however, the handler invokes nothing and erases the stored
waiters from the record. -/
theorem claim2_amended (st : ProviderState) (sid : String) (e : ObserverQuery)
    (w kaId : Nat) (pl : Option WirePayload)
    (hget : mapGet st.subscriptionObserverMap sid = some e)
    (hw : e.subscriptionFailedCallback = some w) :
    (_handleIncomingSubscriptionMessage st
        { id := sid, msgType := MESSAGE_TYPES.GQL_ERROR, payload := pl }
        kaId).invokedCallbacks = [w] ∧
    (_timeoutStartSubscriptionAck st sid).invokedCallbacks = [] ∧
    (mapGet (_timeoutStartSubscriptionAck st sid).state.subscriptionObserverMap sid).bind
      (fun r => r.subscriptionFailedCallback) = none := by
  refine ⟨?_, ?_, ?_⟩
  · simp [_handleIncomingSubscriptionMessage, hget, hw]
  · simp [_timeoutStartSubscriptionAck, hget]
  · simp [_timeoutStartSubscriptionAck, hget, mapGet_mapSet_self]

/-- Witness for the amended C2 at the concrete fixture. -/
theorem claim2_amended_witness :
    (_handleIncomingSubscriptionMessage stWaiter
        { id := "s1", msgType := MESSAGE_TYPES.GQL_ERROR, payload := none }
        99).invokedCallbacks = [5] ∧
    (_timeoutStartSubscriptionAck stWaiter "s1").invokedCallbacks = [] ∧
    (mapGet (_timeoutStartSubscriptionAck stWaiter "s1").state.subscriptionObserverMap
        "s1").bind (fun r => r.subscriptionFailedCallback) = none :=
  claim2_amended stWaiter "s1" recPendingWaiter 5 99 none rfl rfl

/-- Claim C3 as stated is false on the code: unsubscribing the concrete PENDING
record that holds armed ack-timeout timer 7 does block without sending a stop
message (first conjunct of the claim), but the timer is neither cancelled
(`cancelledTimers = []`) nor reachable for cancellation afterwards (the record
installed by the waiter mechanism dropped `startAckTimeoutId`). -/
theorem claim3_counterexample :
    (mapGet stTimer.subscriptionObserverMap "s1").bind
        (fun r => r.startAckTimeoutId) = some 7 ∧
    (unsubscribeBegin stTimer "s1" 10 11).outcome = WaitOutcome.waiting ∧
    (unsubscribeBegin stTimer "s1" 10 11).socketSends = [] ∧
    (unsubscribeBegin stTimer "s1" 10 11).cancelledTimers = [] ∧
    (mapGet (unsubscribeBegin stTimer "s1" 10 11).state.subscriptionObserverMap
        "s1").bind (fun r => r.startAckTimeoutId) = none :=
  ⟨rfl, rfl, rfl, rfl, rfl⟩

/-- Claim C3 amended: unsubscribing a PENDING subscription blocks without
sending a stop message and without cancelling anything, and the waiter record
it installs drops the ack-timeout timer id — the timer is left running,
unreachable from the record (its eventual firing is handled by
`_timeoutStartSubscriptionAck`, a no-op once the record is gone). -/
theorem claim3_amended (st : ProviderState) (sid : String) (e : ObserverQuery)
    (res rej : Nat)
    (hget : mapGet st.subscriptionObserverMap sid = some e)
    (hpend : e.subscriptionState = SUBSCRIPTION_STATUS.PENDING) :
    (unsubscribeBegin st sid res rej).outcome = WaitOutcome.waiting ∧
    (unsubscribeBegin st sid res rej).socketSends = [] ∧
    (unsubscribeBegin st sid res rej).cancelledTimers = [] ∧
    (mapGet (unsubscribeBegin st sid res rej).state.subscriptionObserverMap sid).map
        (fun r => (r.subscriptionReadyCallback, r.subscriptionFailedCallback,
          r.startAckTimeoutId)) = some (some res, some rej, none) := by
  refine ⟨?_, ?_, ?_, ?_⟩ <;>
    simp [unsubscribeBegin, _waitForSubscriptionToBeConnected, hget, hpend,
      mapGet_mapSet_self]

/-- Witness for the amended C3 at the concrete fixture. -/
theorem claim3_amended_witness :
    (unsubscribeBegin stTimer "s1" 10 11).outcome = WaitOutcome.waiting ∧
    (unsubscribeBegin stTimer "s1" 10 11).socketSends = [] ∧
    (unsubscribeBegin stTimer "s1" 10 11).cancelledTimers = [] ∧
    (mapGet (unsubscribeBegin stTimer "s1" 10 11).state.subscriptionObserverMap
        "s1").map (fun r => (r.subscriptionReadyCallback, r.subscriptionFailedCallback,
          r.startAckTimeoutId)) = some (some 10, some 11, none) :=
  claim3_amended stTimer "s1" recPendingTimer 10 11 rfl rfl

/-- Claim C5 as stated is false on the code: the subscription id is not
supplied by the caller. `SubscribeOptions` has no id field, and two subscribe
calls with distinct caller-supplied arguments use the same id — the uuid the
provider drew internally — as the correlation key of the start message. -/
theorem claim5_counterexample :
    optA ≠ optB ∧
    subscribe "fresh-uuid-1" (some optA) = SubscribeSetup.started "fresh-uuid-1" ∧
    subscribe "fresh-uuid-1" (some optB) = SubscribeSetup.started "fresh-uuid-1" ∧
    (buildSubscriptionMessage "fresh-uuid-1" "dataString").1.id = "fresh-uuid-1" := by
  refine ⟨?_, rfl, rfl, rfl⟩
  decide

/-- Claim C5 amended: the subscription id used as the correlation key of the
start message is the uuid the provider generates internally at subscribe time
(`const subscriptionId = uuid()`); the caller does not supply it. -/
theorem claim5_amended (freshUuid dataString : String) (o : SubscribeOptions)
    (ep : String)
    (hep : o.appSyncGraphqlEndpoint = some ep)
    (hne : ep.isEmpty = false) :
    subscribe freshUuid (some o) = SubscribeSetup.started freshUuid ∧
    (buildSubscriptionMessage freshUuid dataString).1.id = freshUuid := by
  constructor
  · simp [subscribe, hep, hne]
  · rfl

/-- Witness for the amended C5 at the concrete fixture. -/
theorem claim5_amended_witness :
    subscribe "u-77" (some optA) = SubscribeSetup.started "u-77" ∧
    (buildSubscriptionMessage "u-77" "d").1.id = "u-77" :=
  claim5_amended "u-77" "d" optA "https://example.com/graphql" rfl rfl

/-- Claim C10: a subscribe call with missing options or a missing (or empty)
endpoint delivers exactly one single-element structured error followed by
completion, creates no registry record and performs no socket interaction. -/
theorem claim10_confirmed (freshUuid : String) (options : Option SubscribeOptions)
    (st : ProviderState) (obs : Observer)
    (h : options = none ∨
         options.bind (fun o => o.appSyncGraphqlEndpoint) = none ∨
         options.bind (fun o => o.appSyncGraphqlEndpoint) = some "") :
    subscribe freshUuid options = SubscribeSetup.earlyError [[subscribeErrorMessage]] true ∧
    subscribeEffects st obs freshUuid options = (st, []) := by
  have hsub : subscribe freshUuid options =
      SubscribeSetup.earlyError [[subscribeErrorMessage]] true := by
    rcases h with h | h | h
    · subst h; rfl
    · rcases options with _ | o
      · rfl
      · simp at h
        simp [subscribe, h]
    · rcases options with _ | o
      · rfl
      · simp at h
        simp [subscribe, h]
        rfl
  exact ⟨hsub, by simp [subscribeEffects, hsub]⟩

/-- Witness for C10 with absent options. -/
theorem claim10_confirmed_witness :
    subscribe "u-1" none = SubscribeSetup.earlyError [[subscribeErrorMessage]] true ∧
    subscribeEffects stClosed obs1 "u-1" none = (stClosed, []) :=
  claim10_confirmed "u-1" none stClosed obs1 (Or.inl rfl)

/-- Claim C1 as stated is false on the code: building headers for the concrete
unrecognized mode "MAGIC_MODE" does not fail — `_awsRealTimeHeaderBasedAuth`
returns the string `''` — and the connection attempt proceeds (the handshake is
attempted from the CLOSED state with those options). -/
theorem claim1_counterexample :
    _awsRealTimeHeaderBasedAuth (connectAuthInput optsBogusMode) envDefault =
      Except.ok AuthHeaders.emptyString ∧
    (initializeWithAuth stClosed 3 envDefault optsBogusMode
        (HandshakeOutcome.success 1000)).handshakeAttempted = true :=
  ⟨rfl, rfl⟩

/-- Claim C1 amended: for a missing or unrecognized authentication mode,
building the auth headers returns the empty string `''` instead of a header
set — no `UnsupportedAuthMode` error is raised — and the connection attempt
still proceeds (a debug line is the only trace). -/
theorem claim1_amended (input : AuthInput) (env : AuthEnv) (st : ProviderState)
    (caller : Nat) (opts : SubscribeOptions) (hs : HandshakeOutcome)
    (hmode : authModeUnsupported input.authenticationType = true)
    (hmode2 : authModeUnsupported opts.authenticationType = true)
    (hclosed : st.socketStatus = SOCKET_STATUS.CLOSED) :
    _awsRealTimeHeaderBasedAuth input env = Except.ok AuthHeaders.emptyString ∧
    (initializeWithAuth st caller env opts hs).handshakeAttempted = true := by
  have hauth : ∀ i : AuthInput, authModeUnsupported i.authenticationType = true →
      _awsRealTimeHeaderBasedAuth i env = Except.ok AuthHeaders.emptyString := by
    intro i hi
    rcases hty : i.authenticationType with _ | t
    · simp [_awsRealTimeHeaderBasedAuth, hty]
    · rw [hty] at hi
      simp [authModeUnsupported] at hi
      simp [_awsRealTimeHeaderBasedAuth, hty, hi]
  refine ⟨hauth input hmode, ?_⟩
  have h2 := hauth (connectAuthInput opts) (by simpa [connectAuthInput] using hmode2)
  simp [initializeWithAuth, _initializeWebSocketConnection, initRequest, hclosed, h2]

/-- Witness for the amended C1 at the concrete fixture. -/
theorem claim1_amended_witness :
    _awsRealTimeHeaderBasedAuth (connectAuthInput optsBogusMode) envDefault =
      Except.ok AuthHeaders.emptyString ∧
    (initializeWithAuth stClosed 4 envDefault optsBogusMode
        (HandshakeOutcome.failure "boom")).handshakeAttempted = true :=
  claim1_amended (connectAuthInput optsBogusMode) envDefault stClosed 4 optsBogusMode
    (HandshakeOutcome.failure "boom") rfl rfl rfl

/-- Claim C4: connection establishment is idempotent and coalescing — READY
returns immediately with no state change; CONNECTING only appends the caller to
the waiter set and starts no handshake; from CLOSED, a first caller starts the
single handshake, a second concurrent caller is only enqueued, and on
completion every coalesced waiter observes the single outcome (resolution or
the one classified rejection), after which the waiter set is emptied. -/
theorem claim4_confirmed (st : ProviderState) (c1 c2 : Nat)
    (auth : Except String AuthHeaders) (outcome : HandshakeOutcome) :
    (st.socketStatus = SOCKET_STATUS.READY →
      _initializeWebSocketConnection st c1 auth outcome =
        { state := st, returnedImmediately := true, handshakeAttempted := false,
          resolvedWaiters := [], rejectedWaiters := [], rejectionError := none }) ∧
    (st.socketStatus = SOCKET_STATUS.CONNECTING →
      _initializeWebSocketConnection st c1 auth outcome =
        { state := { st with promiseArray := st.promiseArray ++ [c1] },
          returnedImmediately := false, handshakeAttempted := false,
          resolvedWaiters := [], rejectedWaiters := [], rejectionError := none }) ∧
    (st.socketStatus = SOCKET_STATUS.CLOSED →
      (initRequest st c1).2 = InitRequestOutcome.startedHandshake ∧
      (initRequest (initRequest st c1).1 c2).2 = InitRequestOutcome.enqueuedOnly ∧
      (∀ w ∈ ((initRequest (initRequest st c1).1 c2).1).promiseArray,
        (∀ kaMs, outcome = HandshakeOutcome.success kaMs →
          w ∈ (handshakeComplete (initRequest (initRequest st c1).1 c2).1
                outcome).resolvedWaiters) ∧
        (∀ err, outcome = HandshakeOutcome.failure err →
          w ∈ (handshakeComplete (initRequest (initRequest st c1).1 c2).1
                outcome).rejectedWaiters ∧
          (handshakeComplete (initRequest (initRequest st c1).1 c2).1
                outcome).rejectionError = some err)) ∧
      c1 ∈ ((initRequest (initRequest st c1).1 c2).1).promiseArray ∧
      c2 ∈ ((initRequest (initRequest st c1).1 c2).1).promiseArray ∧
      (handshakeComplete (initRequest (initRequest st c1).1 c2).1
          outcome).state.promiseArray = []) := by
  refine ⟨?_, ?_, ?_⟩
  · intro h
    simp [_initializeWebSocketConnection, initRequest, h]
  · intro h
    simp [_initializeWebSocketConnection, initRequest, h]
  · intro h
    refine ⟨?_, ?_, ?_, ?_, ?_, ?_⟩
    · simp [initRequest, h]
    · simp [initRequest, h]
    · intro w hw
      constructor
      · intro kaMs hk
        subst hk
        simpa [handshakeComplete] using hw
      · intro err he
        subst he
        exact ⟨by simpa [handshakeComplete] using hw, by simp [handshakeComplete]⟩
    · simp [initRequest, h]
    · simp [initRequest, h]
    · rcases outcome with kaMs | err <;> simp [handshakeComplete]

/-- Witness for C4: two concrete coalesced callers from the CLOSED state both
observe the successful outcome of the single handshake. -/
theorem claim4_confirmed_witness :
    (initRequest stClosed 1).2 = InitRequestOutcome.startedHandshake ∧
    (initRequest (initRequest stClosed 1).1 2).2 = InitRequestOutcome.enqueuedOnly ∧
    1 ∈ (handshakeComplete (initRequest (initRequest stClosed 1).1 2).1
          (HandshakeOutcome.success 1000)).resolvedWaiters ∧
    2 ∈ (handshakeComplete (initRequest (initRequest stClosed 1).1 2).1
          (HandshakeOutcome.success 1000)).resolvedWaiters ∧
    (handshakeComplete (initRequest (initRequest stClosed 1).1 2).1
          (HandshakeOutcome.success 1000)).state.promiseArray = [] := by
  have h := (claim4_confirmed stClosed 1 2 (Except.ok AuthHeaders.emptyString)
    (HandshakeOutcome.success 1000)).2.2 rfl
  refine ⟨h.1, h.2.1, ?_, ?_, h.2.2.2.2.2⟩
  · exact ((h.2.2.1 1 h.2.2.2.1).1 1000 rfl)
  · exact ((h.2.2.1 2 h.2.2.2.2.1).1 1000 rfl)

/-- Claim C6: a handshake attempt failure is retried iff its server-supplied
code lies outside `NON_RETRYABLE_CODES = [400, 401, 403]` (failures without a
code — transport errors, the connection-init ack timeout — carry none and are
retried); a code in the set aborts the loop immediately; the backoff delay of
every step is capped at 5000 ms. -/
theorem claim6_confirmed (e : RawHandshakeError) (rest : List (Option RawHandshakeError))
    (n : Nat) (t m : String) (c : Nat) (jitter : Nat → Nat) (attempt : Nat) :
    (codeIsNonRetryable e = true →
      ∃ msg, retryLoop (some e :: rest) n = RetryResult.abortedNonRetryable msg (n + 1)) ∧
    (codeIsNonRetryable e = false →
      retryLoop (some e :: rest) n = retryLoop rest (n + 1)) ∧
    (codeIsNonRetryable (RawHandshakeError.connError t c) = true ↔
      c ∈ NON_RETRYABLE_CODES) ∧
    NON_RETRYABLE_CODES = [400, 401, 403] ∧
    retryLoop (some (RawHandshakeError.closeError m) :: rest) n = retryLoop rest (n + 1) ∧
    retryLoop (some RawHandshakeError.ackTimeoutError :: rest) n = retryLoop rest (n + 1) ∧
    jitteredBackoffDelay jitter MAX_DELAY_MS attempt ≤ 5000 := by
  refine ⟨?_, ?_, ?_, rfl, ?_, ?_, ?_⟩
  · intro hc
    rcases e with ⟨ty, code⟩ | msg | _
    · simp [codeIsNonRetryable, errorCodeOf] at hc
      exact ⟨ty, by simp [retryLoop, _initializeHandshakeClassify, hc]⟩
    · simp [codeIsNonRetryable, errorCodeOf] at hc
    · simp [codeIsNonRetryable, errorCodeOf] at hc
  · intro hc
    rcases e with ⟨ty, code⟩ | msg | _
    · simp [codeIsNonRetryable, errorCodeOf] at hc
      by_cases hty : ty.isEmpty = false <;>
        simp [retryLoop, _initializeHandshakeClassify, hc, hty]
    · simp [retryLoop, _initializeHandshakeClassify]
    · simp [retryLoop, _initializeHandshakeClassify]
  · simp [codeIsNonRetryable, errorCodeOf]
  · simp [retryLoop, _initializeHandshakeClassify]
  · simp [retryLoop, _initializeHandshakeClassify]
  · exact Nat.min_le_right _ _

/-- Witness for C6: a 401 connection error aborts the loop at once; a 500
connection error and an ack timeout are retried into the next attempt, which
succeeds. -/
theorem claim6_confirmed_witness :
    retryLoop [some (RawHandshakeError.connError "UnauthorizedException" 401), none] 0 =
      RetryResult.abortedNonRetryable "UnauthorizedException" 1 ∧
    retryLoop [some (RawHandshakeError.connError "ServerError" 500), none] 0 =
      RetryResult.succeeded 2 ∧
    retryLoop [some RawHandshakeError.ackTimeoutError, none] 0 =
      RetryResult.succeeded 2 ∧
    jitteredBackoffDelay (fun _ => 37) MAX_DELAY_MS 20 ≤ 5000 := by
  have h1 := (claim6_confirmed (RawHandshakeError.connError "UnauthorizedException" 401)
    [none] 0 "" "" 0 (fun _ => 37) 20).1 rfl
  have h2 := (claim6_confirmed (RawHandshakeError.connError "ServerError" 500)
    [none] 0 "" "" 0 (fun _ => 37) 20).2.1 rfl
  have h3 := (claim6_confirmed RawHandshakeError.ackTimeoutError
    [none] 0 "" "" 0 (fun _ => 37) 20).2.1 rfl
  have h4 := (claim6_confirmed RawHandshakeError.ackTimeoutError
    [none] 0 "" "" 0 (fun _ => 37) 20).2.2.2.2.2.2
  refine ⟨?_, by rw [h2]; rfl, by rw [h3]; rfl, h4⟩
  obtain ⟨msg, hmsg⟩ := h1
  rw [hmsg]
  have : msg = "UnauthorizedException" := by
    have := hmsg.symm.trans (rfl : retryLoop
      [some (RawHandshakeError.connError "UnauthorizedException" 401), none] 0 =
      RetryResult.abortedNonRetryable "UnauthorizedException" 1)
    cases this
    rfl
  rw [this]

/-- Helper: the disconnect emissions address exactly the open observers, in
registry order. -/
theorem errorDisconnect_targets (m : List (String × ObserverQuery)) (msg : String) :
    (m.filterMap (fun p =>
      if p.2.observer.closed then none
      else some (p.2.observer.oid, ConsumerEvent.error [msg]))).map (fun x => x.1)
    = (m.filter (fun p => !p.2.observer.closed)).map (fun p => p.2.observer.oid) := by
  induction m with
  | nil => rfl
  | cons a rest ih =>
    by_cases h : a.2.observer.closed <;> simp [h, ih]

/-- Claim C7: keep-alive expiry triggers `_errorDisconnect`
(`TIMEOUT_DISCONNECT`), which delivers exactly one terminal error to each
registered consumer whose observer is still open (provided observer addresses
are distinct), emits nothing but such errors, leaves the registry empty, closes
the physical socket, and resets the status to CLOSED. -/
theorem claim7_confirmed (st : ProviderState) (msg : String)
    (hnodup : (st.subscriptionObserverMap.map (fun p => p.2.observer.oid)).Nodup)
    (hsock : st.awsRealTimeSocket.isSome = true) :
    (∀ sid e, (sid, e) ∈ st.subscriptionObserverMap → e.observer.closed = false →
      ((_errorDisconnect st msg).emissions.map (fun x => x.1)).count e.observer.oid = 1) ∧
    (∀ x ∈ (_errorDisconnect st msg).emissions, x.2 = ConsumerEvent.error [msg]) ∧
    (_errorDisconnect st msg).state.subscriptionObserverMap = [] ∧
    (_errorDisconnect st msg).socketCloseCalled = true ∧
    (_errorDisconnect st msg).state.socketStatus = SOCKET_STATUS.CLOSED := by
  refine ⟨?_, ?_, rfl, hsock, rfl⟩
  · intro sid e hmem hopen
    have hmap : (_errorDisconnect st msg).emissions.map (fun x => x.1)
        = (st.subscriptionObserverMap.filter (fun p => !p.2.observer.closed)).map
            (fun p => p.2.observer.oid) := errorDisconnect_targets _ _
    rw [hmap]
    have hsub : ((st.subscriptionObserverMap.filter
          (fun p => !p.2.observer.closed)).map (fun p => p.2.observer.oid)).Sublist
        (st.subscriptionObserverMap.map (fun p => p.2.observer.oid)) :=
      (List.filter_sublist _).map _
    have hnd := List.Nodup.sublist hsub hnodup
    have hm : e.observer.oid ∈ (st.subscriptionObserverMap.filter
        (fun p => !p.2.observer.closed)).map (fun p => p.2.observer.oid) := by
      refine List.mem_map_of_mem _ (List.mem_filter.mpr ⟨hmem, ?_⟩)
      simp [hopen]
    exact List.count_eq_one_of_mem hnd hm
  · intro x hx
    have hx' : x ∈ st.subscriptionObserverMap.filterMap (fun p =>
        if p.2.observer.closed then none
        else some (p.2.observer.oid, ConsumerEvent.error [msg])) := hx
    rw [List.mem_filterMap] at hx'
    obtain ⟨p, _, hpe⟩ := hx'
    by_cases h : p.2.observer.closed
    · simp [h] at hpe
    · simp [h] at hpe
      rw [← hpe]

/-- Witness for C7: with two registered open consumers (oids 1 and 2), each
receives exactly one terminal error, the registry ends empty and the socket is
closed. -/
theorem claim7_confirmed_witness :
    ((_errorDisconnect stTwoSubs CONTROL_MSG_TIMEOUT_DISCONNECT).emissions.map
        (fun x => x.1)).count recA.observer.oid = 1 ∧
    ((_errorDisconnect stTwoSubs CONTROL_MSG_TIMEOUT_DISCONNECT).emissions.map
        (fun x => x.1)).count recB.observer.oid = 1 ∧
    (_errorDisconnect stTwoSubs
        CONTROL_MSG_TIMEOUT_DISCONNECT).state.subscriptionObserverMap = [] ∧
    (_errorDisconnect stTwoSubs CONTROL_MSG_TIMEOUT_DISCONNECT).socketCloseCalled = true := by
  have h := claim7_confirmed stTwoSubs CONTROL_MSG_TIMEOUT_DISCONNECT (by decide) rfl
  exact ⟨h.1 "a" recA (by decide) rfl, h.1 "b" recB (by decide) rfl,
    h.2.2.1, h.2.2.2.1⟩

/-- Claim C8: a PENDING subscription whose start-ack never arrives within the
fixed 15-second deadline (`START_ACK_TIMEOUT = 15000`) transitions to FAILED,
its open consumer receives exactly one terminal error mentioning the timeout
followed by a completion signal, and the composed teardown removes the record
from the registry. -/
theorem claim8_confirmed (st : ProviderState) (sid : String) (e : ObserverQuery)
    (hget : mapGet st.subscriptionObserverMap sid = some e)
    (hpend : e.subscriptionState = SUBSCRIPTION_STATUS.PENDING)
    (hopen : e.observer.closed = false) :
    (mapGet (_timeoutStartSubscriptionAck st sid).state.subscriptionObserverMap
        sid).map (fun r => r.subscriptionState) = some SUBSCRIPTION_STATUS.FAILED ∧
    (ackTimeoutExpiry st sid).emissions =
      [(e.observer.oid, ConsumerEvent.error [timeoutErrorMessage e.query e.variablesStr]),
       (e.observer.oid, ConsumerEvent.complete)] ∧
    (∃ rest, timeoutErrorMessage e.query e.variablesStr =
      "Subscription timeout " ++ rest) ∧
    mapGet (ackTimeoutExpiry st sid).finalState.subscriptionObserverMap sid = none ∧
    START_ACK_TIMEOUT = 15000 := by
  refine ⟨?_, ?_, ⟨_, rfl⟩, ?_, rfl⟩
  · simp [_timeoutStartSubscriptionAck, hget, mapGet_mapSet_self]
  · simp [ackTimeoutExpiry, _timeoutStartSubscriptionAck, hget, hopen]
  · simp [ackTimeoutExpiry, _timeoutStartSubscriptionAck, hget, hopen,
      unsubscribeBegin, _waitForSubscriptionToBeConnected, unsubscribeCleanupResolved,
      mapGet_mapSet_self, mapGet_mapDelete_self]

/-- Witness for C8 at the concrete fixture: the error text, the completion and
the removal are all observed. -/
theorem claim8_confirmed_witness :
    (ackTimeoutExpiry stTimer "s1").emissions =
      [(recPendingTimer.observer.oid,
          ConsumerEvent.error [timeoutErrorMessage recPendingTimer.query
            recPendingTimer.variablesStr]),
       (recPendingTimer.observer.oid, ConsumerEvent.complete)] ∧
    mapGet (ackTimeoutExpiry stTimer "s1").finalState.subscriptionObserverMap "s1" = none := by
  have h := claim8_confirmed stTimer "s1" recPendingTimer rfl rfl rfl
  exact ⟨h.2.1, h.2.2.2.1⟩

end AppSyncRT
